import Mathlib

/-!
# Verification of the Text2SQL translation pipeline

A shallow embedding, in Lean 4, of the core translation pipeline of
`text2sql.py` (class `Text2SQLConverter` and its helpers), together with
theorems settling the specified properties of the pipeline.

Modelling conventions:

* Python `str` values are modelled as `Str := List Char`.  Python's
  `.upper()` / `.lower()` are modelled with `Char.toUpper` / `Char.toLower`
  (faithful on the ASCII texts the pipeline manipulates), and `.strip()`
  with removal of the ASCII whitespace characters.
* `hashlib.md5(...).hexdigest()` is an external library function; it is
  modelled as an arbitrary function parameter `md5hex : Str → Str`
  (absorbing the injective UTF-8 encoding), so every theorem about cache
  keys holds for the real digest function in particular.
* The Gemini collaborator (`self.gemini_model.generate_content`) is an
  external service; each call takes it as a function `model : Str → Str`
  from the prompt to the raw response text.
* `time.time()` / `time.sleep(...)` are modelled by threading an explicit
  clock `now : ℤ` through the computation (integer time units; only
  comparisons, additions and subtractions of times occur, so integer
  instants model the float-valued `time.time()` faithfully for every
  property stated here); a sleep advances the clock by
  exactly the slept duration.
* Externally observable effects (the model invocation, the sanitizer and
  validator stages, sleeping) are recorded in an event trace so that
  "stage X is not invoked" is expressible as the absence of its event.
* A Python `dict` is modelled as an association list whose keys are
  distinct; `sorted(schema.items())` sorts the items by table name, which
  agrees with Python's tuple ordering whenever the keys are distinct.
-/

/-- Python strings, as lists of characters. -/
abbrev Str := List Char

/-- The ASCII whitespace characters removed by Python's `str.strip()`. -/
def isSpaceCh (c : Char) : Bool :=
  c == ' ' || c == '\t' || c == '\n' || c == '\r' || c == '\x0b' || c == '\x0c'

/-- Python `s.upper()` (ASCII). -/
def upperChars (s : Str) : Str := s.map Char.toUpper

/-- Python `s.lower()` (ASCII). -/
def lowerChars (s : Str) : Str := s.map Char.toLower

/-- Drop trailing characters satisfying `p` (Python `rstrip`). -/
def dropTrailing (p : Char → Bool) (s : Str) : Str :=
  (s.reverse.dropWhile p).reverse

/-- Python `s.strip()`: remove leading and trailing whitespace. -/
def trimChars (s : Str) : Str :=
  dropTrailing isSpaceCh (s.dropWhile isSpaceCh)

/-- Python `s.startswith(pat)`. -/
def beginsWith : Str → Str → Bool
  | [], _ => true
  | _ :: _, [] => false
  | p :: ps, c :: cs => p == c && beginsWith ps cs

/-- Python `s.find(pat)`: index of the first occurrence of `pat` in `s`,
`none` when absent (Python returns `-1`). -/
def findSub (pat : Str) : Str → Option Nat
  | [] => if pat.isEmpty then some 0 else none
  | c :: cs => if beginsWith pat (c :: cs) then some 0 else (findSub pat cs).map (· + 1)

/-- Python `pat in s` (substring containment). -/
def hasSub (pat : Str) (s : Str) : Bool := (findSub pat s).isSome

/-- Auxiliary fuelled loop for `countSub`. -/
def countSubAux (pat : Str) : Nat → Str → Nat
  | 0, _ => 0
  | fuel + 1, s =>
    match findSub pat s with
    | none => 0
    | some i => 1 + countSubAux pat fuel (s.drop (i + pat.length))

/-- Python `s.count(pat)`: number of non-overlapping occurrences (for
nonempty `pat`, which is the only way the source uses it). -/
def countSub (pat : Str) (s : Str) : Nat := countSubAux pat (s.length + 1) s

/-- Python `s.split('\n')`. -/
def splitLines : Str → List Str
  | [] => [[]]
  | c :: rest =>
    if c == '\n' then [] :: splitLines rest
    else
      match splitLines rest with
      | [] => [[c]]
      | l :: ls => (c :: l) :: ls

/-- The `'SELECT'` keyword. -/
def kwSELECT : Str := "SELECT".data

/-- The `'FROM'` keyword. -/
def kwFROM : Str := "FROM".data

/-- The denylist of degenerate fragments used by `_is_valid_sql`
(`['SELECT AVG(T1.GRADE);', 'SELECT;', 'FROM;']`). -/
def fragmentDenylist : List Str :=
  ["SELECT AVG(T1.GRADE);".data, "SELECT;".data, "FROM;".data]

/-- `Text2SQLConverter._is_valid_sql`, translated clause by clause:

```python
if not text or not isinstance(text, str): return False
text_upper = text.upper().strip()
has_select = "SELECT" in text_upper
has_from = "FROM" in text_upper
has_semicolon = text.strip().endswith(';')
reasonable_length = 10 < len(text) < 2000
select_pos = text_upper.find("SELECT")
from_pos = text_upper.find("FROM")
valid_structure = select_pos < from_pos if (select_pos >= 0 and from_pos >= 0) else False
is_not_fragment = not (text_upper.count('SELECT') == 0 or
                       text_upper.strip() in ['SELECT AVG(T1.GRADE);', 'SELECT;', 'FROM;'])
return (has_select and has_from and has_semicolon and
        reasonable_length and valid_structure and is_not_fragment)
```
-/
def _is_valid_sql (text : Str) : Bool :=
  if text.isEmpty then false
  else
    let text_upper := trimChars (upperChars text)
    let has_select := hasSub kwSELECT text_upper
    let has_from := hasSub kwFROM text_upper
    let has_semicolon := (trimChars text).getLast? == some ';'
    let reasonable_length := decide (10 < text.length) && decide (text.length < 2000)
    let valid_structure :=
      match findSub kwSELECT text_upper, findSub kwFROM text_upper with
      | some select_pos, some from_pos => decide (select_pos < from_pos)
      | _, _ => false
    let is_not_fragment :=
      !(decide (countSub kwSELECT text_upper = 0) ||
        (fragmentDenylist.contains (trimChars text_upper)))
    has_select && has_from && has_semicolon &&
      reasonable_length && valid_structure && is_not_fragment

example : _is_valid_sql "SELECT 1 FROM t;".data = true := by decide
example : _is_valid_sql "SELECT;".data = false := by decide
example : _is_valid_sql "select x from t; ".data = true := by decide
example : _is_valid_sql " FROM x SELECT y;".data = false := by decide

/-- The backtick character (code point 96). -/
def btick : Char := Char.ofNat 96

/-- The markdown fence marker `'```'`. -/
def fenceMarker : Str := [btick, btick, btick]

/-- The explanatory markers checked (lower-cased) by `_clean_sql_response`:
`['explicação:', 'resultado:', 'esta consulta']`. -/
def explanationMarkers : List Str :=
  ["explicação:".data, "resultado:".data, "esta consulta".data]

/-- First phase of `_clean_sql_response`: when the response starts with a
markdown fence, keep the lines inside fences (or fence-free lines that
mention SELECT), joined back with newlines:

```python
if sql.startswith('```'):
    lines = sql.split('\n')
    sql_lines = []
    in_code = False
    for line in lines:
        if line.startswith('```'):
            in_code = not in_code
            continue
        if in_code or (not line.startswith('```') and 'SELECT' in line.upper()):
            sql_lines.append(line)
    sql = '\n'.join(sql_lines)
```
-/
def stripFences (sql : Str) : Str :=
  if beginsWith fenceMarker sql then
    let step : List Str × Bool → Str → List Str × Bool := fun acc line =>
      if beginsWith fenceMarker line then (acc.1, !acc.2)
      else if acc.2 || (!beginsWith fenceMarker line && hasSub kwSELECT (upperChars line)) then
        (acc.1 ++ [line], acc.2)
      else (acc.1, acc.2)
    List.intercalate ['\n'] (((splitLines sql).foldl step ([], false)).1)
  else sql

/-- Second phase of `_clean_sql_response`: drop blank and comment lines and
stop at the first explanatory line:

```python
sql_lines = []
for line in sql.split('\n'):
    line = line.strip()
    if line and not line.startswith('--') and not line.startswith('#'):
        if any(word in line.lower() for word in ['explicação:', 'resultado:', 'esta consulta']):
            break
        sql_lines.append(line)
sql = ' '.join(sql_lines)
```
-/
def cleanLines : List Str → List Str
  | [] => []
  | line :: rest =>
    let l := trimChars line
    if l.isEmpty then cleanLines rest
    else if beginsWith "--".data l then cleanLines rest
    else if beginsWith "#".data l then cleanLines rest
    else if explanationMarkers.any (fun w => hasSub w (lowerChars l)) then []
    else l :: cleanLines rest

/-- `Text2SQLConverter._clean_sql_response`: strip markdown fences, drop
comment/explanation lines, join with single spaces, and terminate with
exactly one semicolon (`sql = sql.rstrip(';').strip() + ';'`). -/
def _clean_sql_response (sql : Str) : Str :=
  let sql1 := stripFences sql
  let sql2 := List.intercalate [' '] (cleanLines (splitLines sql1))
  trimChars (dropTrailing (· == ';') sql2) ++ [';']

example : _clean_sql_response "SELECT 1".data = "SELECT 1;".data := by decide
example :
    _clean_sql_response ("```sql\nSELECT 1;\n```".data) = "SELECT 1;".data := by decide
example :
    _clean_sql_response ("SELECT 1;\n-- comment\nExplicação: blah".data)
      = "SELECT 1;".data := by decide

/-- A schema, as handed to `nl_to_sql`: a Python dict from table name to the
list of column names, modelled as an association list in iteration order. -/
abbrev Schema := List (Str × List Str)

/-- Python `table_name in schema` (dict key membership). -/
def hasKey (schema : Schema) (t : Str) : Bool := schema.any (fun p => p.1 == t)

/-- Renders one table block exactly as the `schema_text +=` lines of
`_format_enhanced_schema` do:

```python
schema_text += f"\n{info['desc']}\n"
schema_text += "Colunas:\n"
for col in info['columns']:
    schema_text += f"  • {col}\n"
schema_text += f"Relacionamentos: {info['relationships']}\n\n"
```
-/
def renderBlock (desc : String) (cols : List String) (rel : String) : Str :=
  ("\n" ++ desc ++ "\n").data ++ "Colunas:\n".data ++
    (cols.foldl (fun acc col => acc ++ ("  • " ++ col ++ "\n").data) []) ++
    ("Relacionamentos: " ++ rel ++ "\n\n").data

/-- The `enhanced_descriptions` dict of `_format_enhanced_schema`, paired in
the fixed `['student', 'instructor', 'course', 'takes', 'department']`
iteration order of the `for table_name in [...]` loop. -/
def enhancedDescriptions : List (Str × Str) :=
  [("student".data,
    renderBlock "TABELA: student - Informações dos estudantes da universidade"
      ["id (INTEGER, PRIMARY KEY) - ID único do estudante",
       "name (VARCHAR) - Nome completo do estudante",
       "dept_name (VARCHAR, FOREIGN KEY) - Nome do departamento do estudante",
       "tot_cred (INTEGER) - Total de créditos acumulados"]
      "Conecta com: department (dept_name), takes (id)"),
   ("instructor".data,
    renderBlock "TABELA: instructor - Informações dos professores/instrutores"
      ["id (INTEGER, PRIMARY KEY) - ID único do professor",
       "name (VARCHAR) - Nome completo do professor",
       "dept_name (VARCHAR, FOREIGN KEY) - Departamento onde leciona",
       "salary (NUMERIC) - Salário do professor"]
      "Conecta com: department (dept_name)"),
   ("course".data,
    renderBlock "TABELA: course - Catálogo de cursos oferecidos"
      ["course_id (VARCHAR, PRIMARY KEY) - Código identificador do curso",
       "title (VARCHAR) - Título/nome do curso",
       "dept_name (VARCHAR, FOREIGN KEY) - Departamento que oferece o curso",
       "credits (INTEGER) - Número de créditos do curso"]
      "Conecta com: department (dept_name), takes (course_id)"),
   ("takes".data,
    renderBlock "TABELA: takes - Registro de matrículas e notas dos estudantes"
      ["id (INTEGER, FOREIGN KEY) - ID do estudante matriculado",
       "course_id (VARCHAR, FOREIGN KEY) - ID do curso matriculado",
       "sec_id (INTEGER) - ID da seção/turma",
       "semester (VARCHAR) - Semestre (Fall, Spring, Summer)",
       "year (INTEGER) - Ano letivo (ex: 2024, 2023)",
       "grade (NUMERIC) - Nota final do estudante (0-10, pode ser NULL se não avaliado)"]
      "TABELA DE RELACIONAMENTO: conecta student (id) com course (course_id)"),
   ("department".data,
    renderBlock "TABELA: department - Departamentos da universidade"
      ["dept_name (VARCHAR, PRIMARY KEY) - Nome do departamento",
       "building (VARCHAR) - Prédio onde fica localizado",
       "budget (NUMERIC) - Orçamento do departamento"]
      "Conecta com: student, instructor, course (dept_name)")]

/-- `Text2SQLConverter._format_enhanced_schema`: iterate the fixed table
vocabulary in order and append the hard-coded block of each table present
as a key of `schema`; tables outside the vocabulary contribute nothing.

```python
schema_text = ""
for table_name in ['student', 'instructor', 'course', 'takes', 'department']:
    if table_name in schema:
        info = enhanced_descriptions[table_name]
        schema_text += ...  # see renderBlock
return schema_text
```
-/
def _format_enhanced_schema (schema : Schema) : Str :=
  enhancedDescriptions.foldl
    (fun schema_text tb => if hasKey schema tb.1 then schema_text ++ tb.2 else schema_text) []

/-- `Text2SQLConverter._get_query_examples` (the literal `examples` string,
including its trailing spaces). -/
def _get_query_examples : Str :=
  ("\n1. Para média de notas por departamento:\n   SELECT AVG(t.grade) \n   FROM takes t \n   JOIN course c ON t.course_id = c.course_id \n   WHERE c.dept_name = 'Finance' AND t.year = 2024;\n\n2. Para contar estudantes por departamento:\n   SELECT COUNT(*) \n   FROM student \n   WHERE dept_name = 'Comp. Sci.';\n\n3. Para listar professores com salário:\n   SELECT name, salary \n   FROM instructor \n   ORDER BY salary DESC;\n\n4. Para cursos de um departamento:\n   SELECT title, credits \n   FROM course \n   WHERE dept_name = 'Physics';\n\n5. Para estudantes e suas notas:\n   SELECT s.name, c.title, t.grade \n   FROM student s \n   JOIN takes t ON s.id = t.id \n   JOIN course c ON t.course_id = c.course_id \n   WHERE t.year = 2024;\n").data

/-- The prompt f-string of `_gemini_generate_sql`, as the concatenation
`head ++ schema_text ++ mid ++ examples ++ rules ++ nl_query ++ tail`. -/
def buildPrompt (nl_query : Str) (schema : Schema) : Str :=
  ("Você é um especialista em SQL PostgreSQL. Converta esta pergunta em linguagem natural para uma consulta SQL válida e completa.\n\nESQUEMA DETALHADO DO BANCO DE DADOS:\n").data ++
  _format_enhanced_schema schema ++
  ("\n\nMAPEAMENTOS DE DEPARTAMENTOS (IMPORTANTE):\n- \"Economia\" ou \"Economics\" → \"Finance\"\n- \"Ciência da Computação\" ou \"Computer Science\" → \"Comp. Sci.\"\n- \"Física\" ou \"Physics\" → \"Physics\"\n- \"Matemática\" ou \"Mathematics\" → \"Math\"\n\nEXEMPLOS DE CONSULTAS VÁLIDAS:\n").data ++
  _get_query_examples ++
  ("\n\nREGRAS OBRIGATÓRIAS:\n1. SEMPRE inclua as cláusulas SELECT e FROM\n2. Use JOINs quando necessário para conectar tabelas relacionadas\n3. Para médias de notas: AVG(takes.grade) com JOIN entre takes e course\n4. Para filtrar por departamento: WHERE course.dept_name = 'Nome_Dept'\n5. Para filtrar por ano: WHERE takes.year = XXXX\n6. Use aspas simples para strings: 'Finance', nunca \"Finance\"\n7. Termine sempre com ponto e vírgula\n8. Para contagens: COUNT(*) ou COUNT(DISTINCT coluna)\n9. Para ordenação: ORDER BY coluna DESC/ASC quando apropriado\n10. NUNCA retorne SQL incompleto ou fragmentado\n\nPERGUNTA: ").data ++
  nl_query ++
  ("\n\nGere apenas o SQL completo e válido (sem explicações, markdown ou comentários):").data

/-- Lexicographic (code-point) order on strings, Python's `str` order. -/
def lexLe : Str → Str → Bool
  | [], _ => true
  | _ :: _, [] => false
  | a :: as, b :: bs =>
    if a.toNat < b.toNat then true
    else if b.toNat < a.toNat then false
    else lexLe as bs

/-- The item order used by `sorted(schema.items())`: compare by table name
(on a dict the keys are distinct, so Python's tuple order never reaches
the second component). -/
def itemLe (a b : Str × List Str) : Prop := lexLe a.1 b.1 = true

instance : DecidableRel itemLe := fun a b => by unfold itemLe; infer_instance

/-- Python `sorted(schema.items())` (a stable sort by table name). -/
def sortItems (schema : Schema) : List (Str × List Str) :=
  schema.insertionSort itemLe

/-- Python `repr` of one of the pipeline's strings (no embedded quotes or
backslashes occur in table/column names). -/
def pyReprStr (s : Str) : Str := '\'' :: (s ++ ['\''])

/-- Python `str` of a list of strings. -/
def pyReprStrList (xs : List Str) : Str :=
  '[' :: (List.intercalate ", ".data (xs.map pyReprStr) ++ [']'])

/-- Python `str` of one `(table, columns)` item. -/
def pyReprItem (p : Str × List Str) : Str :=
  '(' :: (pyReprStr p.1 ++ ", ".data ++ pyReprStrList p.2 ++ [')'])

/-- Python `str(sorted(schema.items()))`. -/
def pyReprItems (l : List (Str × List Str)) : Str :=
  '[' :: (List.intercalate ", ".data (l.map pyReprItem) ++ [']'])

/-- The digest input `f"{nl_query}_{str(sorted(schema.items()))}"`. -/
def cacheKeyBase (nl_query : Str) (schema : Schema) : Str :=
  nl_query ++ '_' :: pyReprItems (sortItems schema)

/-- `cache_key = hashlib.md5(f"{nl_query}_{str(sorted(schema.items()))}".encode()).hexdigest()`,
with the md5 hex digest (composed with UTF-8 encoding) abstracted as the
function parameter `md5hex`. -/
def cache_key (md5hex : Str → Str) (nl_query : Str) (schema : Schema) : Str :=
  md5hex (cacheKeyBase nl_query schema)

example :
    pyReprItems (sortItems [("b".data, []), ("a".data, ["x".data])])
      = "[('a', ['x']), ('b', [])]".data := by decide
example :
    _format_enhanced_schema [("foo".data, ["a".data, "b".data])] = [] := by decide

/-- Case-insensitive literal match at the start of `s` (regex `IGNORECASE`);
returns the matched prefix as written in `s`, and the remainder. -/
def matchCI : Str → Str → Option (Str × Str)
  | [], s => some ([], s)
  | _ :: _, [] => none
  | p :: ps, c :: cs =>
    if p.toUpper == c.toUpper then (matchCI ps cs).map (fun m => (c :: m.1, m.2)) else none

/-- A match attempt for `(\s*(?:=|LIKE|IN)\s+)"([^"]+)"` (IGNORECASE) at the
start of `s`; on success returns the replacement text `\1'\2'` and the
remainder after the match.  The greedy `\s*`/`\s+`/`[^"]+` pieces are
matched maximally, which agrees with the backtracking regex because no
keyword starts with whitespace and `"` is neither whitespace nor in
`[^"]`. -/
def tryQuotePat1 (s : Str) : Option (Str × Str) :=
  let ws1 := s.takeWhile isSpaceCh
  let r1 := s.dropWhile isSpaceCh
  match (matchCI "=".data r1).orElse (fun _ => (matchCI "LIKE".data r1).orElse
      (fun _ => matchCI "IN".data r1)) with
  | none => none
  | some (kw, r2) =>
    let ws2 := r2.takeWhile isSpaceCh
    match r2.dropWhile isSpaceCh with
    | '"' :: r4 =>
      if ws2.isEmpty then none
      else
        let content := r4.takeWhile (fun c => !(c == '"'))
        match r4.dropWhile (fun c => !(c == '"')) with
        | '"' :: r6 =>
          if content.isEmpty then none
          else some (ws1 ++ kw ++ ws2 ++ '\'' :: (content ++ ['\'']), r6)
        | _ => none
    | _ => none

/-- A match attempt for `(dept_name\s*=\s*)"([^"]+)"` (IGNORECASE). -/
def tryQuotePat2 (s : Str) : Option (Str × Str) :=
  match matchCI "dept_name".data s with
  | none => none
  | some (dn, r1) =>
    let ws1 := r1.takeWhile isSpaceCh
    match r1.dropWhile isSpaceCh with
    | '=' :: r3 =>
      let ws2 := r3.takeWhile isSpaceCh
      match r3.dropWhile isSpaceCh with
      | '"' :: r5 =>
        let content := r5.takeWhile (fun c => !(c == '"'))
        match r5.dropWhile (fun c => !(c == '"')) with
        | '"' :: r7 =>
          if content.isEmpty then none
          else some (dn ++ ws1 ++ '=' :: (ws2 ++ '\'' :: (content ++ ['\''])), r7)
        | _ => none
      | _ => none
    | _ => none

/-- `re.sub` driver: scan left to right, replacing each non-overlapping
leftmost match and resuming after it.  The fuel is an upper bound on the
number of scan steps (every step consumes at least one character). -/
def reSubScan (attempt : Str → Option (Str × Str)) : Nat → Str → Str
  | 0, s => s
  | fuel + 1, s =>
    match attempt s with
    | some (rep, rest) => rep ++ reSubScan attempt fuel rest
    | none =>
      match s with
      | [] => []
      | c :: cs => c :: reSubScan attempt fuel cs

/-- `Text2SQLConverter._fix_quotes`: the two IGNORECASE `re.sub`
substitutions applied in order. -/
def _fix_quotes (sql_query : Str) : Str :=
  let result := reSubScan tryQuotePat1 (sql_query.length + 1) sql_query
  reSubScan tryQuotePat2 (result.length + 1) result

example :
    _fix_quotes "SELECT * FROM x WHERE dept_name = \"Finance\";".data
      = "SELECT * FROM x WHERE dept_name = 'Finance';".data := by decide
example :
    _fix_quotes "WHERE dept_name=\"Fin\";".data = "WHERE dept_name='Fin';".data := by
  decide
example :
    _fix_quotes "WHERE a LIKE \"b%\" AND c IN \"d\";".data
      = "WHERE a LIKE 'b%' AND c IN 'd';".data := by decide
example : _fix_quotes "WHERE x =\"y\";".data = "WHERE x =\"y\";".data := by decide

/-- The failure signals `nl_to_sql` can raise (`raise Exception(...)`). -/
inductive Err where
  | notConfigured
  | validationRejected
deriving DecidableEq, Repr

/-- Externally observable effects of one `nl_to_sql` call. -/
inductive Event where
  /-- `time.sleep(d)` in the rate-limiting branch. -/
  | sleep (d : ℤ)
  /-- The external Gemini invocation, with the prompt it receives. -/
  | modelCall (prompt : Str)
  /-- The response sanitizer running on the raw response. -/
  | sanitize (raw : Str)
  /-- The shape validator running on the sanitized text. -/
  | validate (text : Str)
deriving DecidableEq

/-- A timestamped event. -/
abbrev TEvent := ℤ × Event

/-- The mutable fields of a `Text2SQLConverter` instance. -/
structure ConverterState where
  /-- Whether a usable credential configured the Gemini collaborator. -/
  use_gemini : Bool
  /-- `self.query_cache`, a dict from digest to accepted SQL (most recent
  binding first). -/
  query_cache : List (Str × Str)
  /-- `self.query_count`. -/
  query_count : Nat
  /-- `self.start_time`. -/
  start_time : ℤ
deriving DecidableEq

/-- The state built by `Text2SQLConverter.__init__` at construction time
`t0`: empty cache, zero call count, `start_time = time.time()`; whether
`use_gemini` holds is decided by credential presence/configurability. -/
def initConverter (configured : Bool) (t0 : ℤ) : ConverterState :=
  { use_gemini := configured, query_cache := [], query_count := 0, start_time := t0 }

/-- Dict lookup `self.query_cache[k]` (with `k in self.query_cache`). -/
def lookupC : List (Str × Str) → Str → Option Str
  | [], _ => none
  | (k, v) :: rest, key => if k = key then some v else lookupC rest key

deriving instance DecidableEq for Except

/-- The outcome of one `nl_to_sql` call: the returned SQL or raised error,
the converter state after the call, the timestamped effects, and the clock
value when the call returns. -/
structure CallResult where
  res : Except Err Str
  state : ConverterState
  events : List TEvent
  finish : ℤ
deriving DecidableEq

/-- The rate-limiting block of `nl_to_sql`:

```python
elapsed = time.time() - self.start_time
if self.query_count >= 50 and elapsed < 60:
    time.sleep(60 - elapsed)
    self.start_time = time.time()
    self.query_count = 0
```

returns the adjusted state, the clock after the (possible) sleep, and the
sleep event if one occurred. -/
def rateGate (st : ConverterState) (now : ℤ) : ConverterState × ℤ × List TEvent :=
  if 50 ≤ st.query_count ∧ now - st.start_time < 60 then
    let wake := now + (60 - (now - st.start_time))
    ({ st with start_time := wake, query_count := 0 }, wake,
      [(now, Event.sleep (60 - (now - st.start_time)))])
  else (st, now, [])

/-- `Text2SQLConverter.nl_to_sql`, with the collaborator `model`, the digest
function `md5hex` and the clock `now` made explicit:

```python
if not self.use_gemini:
    raise Exception("Google Gemini não está configurado. ...")
cache_key = hashlib.md5(f"{nl_query}_{str(sorted(schema.items()))}".encode()).hexdigest()
if cache_key in self.query_cache:
    print("⚡ Cache hit!")
    return self.query_cache[cache_key]
# Rate limiting (see rateGate)
result = self._gemini_generate_sql(nl_query, schema)
self.query_count += 1
if self._is_valid_sql(result):
    self.query_cache[cache_key] = result
    return result
else:
    raise Exception("SQL gerado não passou na validação")
```

`_gemini_generate_sql` builds the prompt, calls the collaborator, and pipes
`response.text.strip()` through `_clean_sql_response` and `_fix_quotes`;
that sanitized text is `pipelineResult`. -/
def pipelineResult (model : Str → Str) (nl_query : Str) (schema : Schema) : Str :=
  _fix_quotes (_clean_sql_response (trimChars (model (buildPrompt nl_query schema))))

/-- The cache-miss path of `nl_to_sql`: rate gate, external call, sanitize,
validate, then cache-and-return or reject. -/
def missCall (model : Str → Str) (st : ConverterState) (now : ℤ) (nl_query : Str)
    (schema : Schema) (key : Str) : CallResult :=
  let g := rateGate st now
  let st1 := g.1
  let t1 := g.2.1
  let prompt := buildPrompt nl_query schema
  let raw := model prompt
  let result := pipelineResult model nl_query schema
  let st2 := { st1 with query_count := st1.query_count + 1 }
  let evs := g.2.2 ++ [(t1, Event.modelCall prompt), (t1, Event.sanitize raw),
    (t1, Event.validate result)]
  cond (_is_valid_sql result)
    ⟨.ok result, { st2 with query_cache := (key, result) :: st2.query_cache }, evs, t1⟩
    ⟨.error .validationRejected, st2, evs, t1⟩

def nl_to_sql (model : Str → Str) (md5hex : Str → Str) (st : ConverterState)
    (now : ℤ) (nl_query : Str) (schema : Schema) : CallResult :=
  if st.use_gemini = false then ⟨.error .notConfigured, st, [], now⟩
  else
    let key := cache_key md5hex nl_query schema
    match lookupC st.query_cache key with
    | some sql => ⟨.ok sql, st, [], now⟩
    | none => missCall model st now nl_query schema key

/-- One request in a sequence of synchronous `nl_to_sql` calls: the next
call starts `delay` time units after the previous one returned. -/
structure Request where
  delay : ℤ
  nl_query : Str
  schema : Schema

/-- A synchronous sequence of `nl_to_sql` calls against one converter
instance, threading state and clock and collecting all events. -/
def runTrace (model : Str → Str) (md5hex : Str → Str) :
    ConverterState → ℤ → List Request → ConverterState × ℤ × List TEvent
  | st, now, [] => (st, now, [])
  | st, now, r :: rs =>
    let c := nl_to_sql model md5hex st (now + r.delay) r.nl_query r.schema
    let rest := runTrace model md5hex c.state c.finish rs
    (rest.1, rest.2.1, c.events ++ rest.2.2)

/-- Whether a timestamped event is an external model invocation inside the
half-open time window `[lo, lo + 60)`. -/
def isModelCallIn (lo : ℤ) (e : TEvent) : Bool :=
  (match e.2 with | Event.modelCall _ => true | _ => false) &&
    decide (lo ≤ e.1) && decide (e.1 < lo + 60)

/-- Number of external model invocations within the window `[lo, lo + 60)`. -/
def modelCallsIn (evs : List TEvent) (lo : ℤ) : Nat :=
  (evs.filter (isModelCallIn lo)).length

/-- The rate-limit invariant tying a converter state, the current clock and
the accumulated events: the window start never lies in the future, no
recorded event lies in the future, at most 50 model invocations lie in the
current window `[start_time, start_time + 60)`, and while the counter is
below the threshold it bounds the number of model invocations in the
current window. -/
def RateInv (st : ConverterState) (now : ℤ) (evs : List TEvent) : Prop :=
  st.start_time ≤ now ∧
  (∀ e ∈ evs, e.1 ≤ now) ∧
  modelCallsIn evs st.start_time ≤ 50 ∧
  (st.query_count < 50 → modelCallsIn evs st.start_time ≤ st.query_count)

/-- The known table vocabulary, in the fixed iteration order of
`_format_enhanced_schema`. -/
def vocabNames : List Str :=
  ["student".data, "instructor".data, "course".data, "takes".data, "department".data]

/-- The (table → column names) half of `get_sample_schema`. -/
def get_sample_schema : Schema :=
  [("student".data, ["id".data, "name".data, "dept_name".data, "tot_cred".data]),
   ("instructor".data, ["id".data, "name".data, "dept_name".data, "salary".data]),
   ("course".data, ["course_id".data, "title".data, "dept_name".data, "credits".data]),
   ("takes".data,
    ["id".data, "course_id".data, "sec_id".data, "semester".data, "year".data, "grade".data]),
   ("department".data, ["dept_name".data, "building".data, "budget".data])]

/-- The claimed acceptance condition of the shape validator, stated from the
specification's wording: case-insensitive SELECT and FROM keywords present,
first SELECT before first FROM, a terminating semicolon, length strictly
between 10 and 2000, and not a denylisted degenerate fragment. -/
def ValidatorSpec (text : Str) : Prop :=
  hasSub kwSELECT (upperChars text) = true ∧
  hasSub kwFROM (upperChars text) = true ∧
  (∃ i j, findSub kwSELECT (upperChars text) = some i ∧
    findSub kwFROM (upperChars text) = some j ∧ i < j) ∧
  (trimChars text).getLast? = some ';' ∧
  10 < text.length ∧ text.length < 2000 ∧
  fragmentDenylist.contains (trimChars (upperChars text)) = false

/-- The identity digest, standing in for `md5hex` in concrete witnesses. -/
def wIdFn : Str → Str := fun s => s

/-- A stub collaborator returning a fixed valid statement. -/
def wGoodModel : Str → Str := fun _ => "SELECT 1 FROM t;".data

/-- A stub collaborator returning unusable output. -/
def wBadModel : Str → Str := fun _ => "x".data

/-- A stub collaborator returning different (still valid) output, to play
the role of a collaborator whose answer changed between calls. -/
def wAltModel : Str → Str := fun _ => "SELECT 2 FROM u;".data

/-- The sanitized form of `wGoodModel`'s output. -/
def wSQL : Str := "SELECT 1 FROM t;".data

/-- A sample question for witnesses. -/
def wQ : Str := "q".data

/-- A converter state sitting exactly at the rate threshold: configured,
empty cache, 50 calls counted, window started at time 0. -/
def c3State : ConverterState :=
  { use_gemini := true, query_cache := [], query_count := 50, start_time := 0 }

/-- The question of the end-to-end scenario. -/
def c8Question : Str := "Quantos estudantes há em ciência da computação?".data

/-- The stubbed collaborator output of the end-to-end scenario: a fenced
statement with a double-quoted literal and no trailing terminator. -/
def c8Raw : Str :=
  "```\nSELECT COUNT(*) FROM student WHERE dept_name = \"Comp. Sci.\"\n```".data

/-- The stubbed collaborator of the end-to-end scenario. -/
def c8Model : Str → Str := fun _ => c8Raw

/-- The expected final output of the end-to-end scenario. -/
def c8Target : Str := "SELECT COUNT(*) FROM student WHERE dept_name = 'Comp. Sci.';".data

/-- A trace refuting a fixed-window bound: the first call happens 61 time
units after construction (so the gate's `elapsed < 60` test can never hold
again), followed by 50 immediate retries; the collaborator output fails
validation, so no call is cached and all 51 calls reach the model. -/
def c4Requests : List Request :=
  ⟨61, wQ, []⟩ :: List.replicate 50 ⟨0, wQ, []⟩

theorem lookupC_cons_self (k v : Str) (rest : List (Str × Str)) :
    lookupC ((k, v) :: rest) k = some v := by
  simp [lookupC]

/-- An unconfigured converter fails immediately, changing nothing. -/
theorem nl_to_sql_not_config (model md5hex : Str → Str) (st : ConverterState)
    (now : ℤ) (q : Str) (sch : Schema) (hg : st.use_gemini = false) :
    nl_to_sql model md5hex st now q sch = ⟨.error .notConfigured, st, [], now⟩ := by
  simp [nl_to_sql, hg]

/-- A cache hit returns the cached SQL, changing nothing. -/
theorem nl_to_sql_hit (model md5hex : Str → Str) (st : ConverterState)
    (now : ℤ) (q : Str) (sch : Schema) (sql : Str) (hg : st.use_gemini = true)
    (hl : lookupC st.query_cache (cache_key md5hex q sch) = some sql) :
    nl_to_sql model md5hex st now q sch = ⟨.ok sql, st, [], now⟩ := by
  simp [nl_to_sql, hg, hl]

/-- A cache miss dispatches to the miss path. -/
theorem nl_to_sql_miss (model md5hex : Str → Str) (st : ConverterState)
    (now : ℤ) (q : Str) (sch : Schema) (hg : st.use_gemini = true)
    (hl : lookupC st.query_cache (cache_key md5hex q sch) = none) :
    nl_to_sql model md5hex st now q sch =
      missCall model st now q sch (cache_key md5hex q sch) := by
  simp [nl_to_sql, hg, hl]

/-- The miss path when the sanitized output passes validation. -/
theorem missCall_spec_true (model : Str → Str) (st : ConverterState) (now : ℤ)
    (q : Str) (sch : Schema) (key : Str)
    (hv : _is_valid_sql (pipelineResult model q sch) = true) :
    missCall model st now q sch key =
      ⟨.ok (pipelineResult model q sch),
       { (rateGate st now).1 with
         query_count := (rateGate st now).1.query_count + 1,
         query_cache := (key, pipelineResult model q sch) :: (rateGate st now).1.query_cache },
       (rateGate st now).2.2 ++
         [((rateGate st now).2.1, Event.modelCall (buildPrompt q sch)),
          ((rateGate st now).2.1, Event.sanitize (model (buildPrompt q sch))),
          ((rateGate st now).2.1, Event.validate (pipelineResult model q sch))],
       (rateGate st now).2.1⟩ := by
  simp only [missCall, hv, cond_true]

/-- The miss path when the sanitized output fails validation. -/
theorem missCall_spec_false (model : Str → Str) (st : ConverterState) (now : ℤ)
    (q : Str) (sch : Schema) (key : Str)
    (hv : _is_valid_sql (pipelineResult model q sch) = false) :
    missCall model st now q sch key =
      ⟨.error .validationRejected,
       { (rateGate st now).1 with
         query_count := (rateGate st now).1.query_count + 1 },
       (rateGate st now).2.2 ++
         [((rateGate st now).2.1, Event.modelCall (buildPrompt q sch)),
          ((rateGate st now).2.1, Event.sanitize (model (buildPrompt q sch))),
          ((rateGate st now).2.1, Event.validate (pipelineResult model q sch))],
       (rateGate st now).2.1⟩ := by
  simp only [missCall, hv, cond_false]

/-- The rate gate when the threshold is hit inside an open window. -/
theorem rateGate_pos (st : ConverterState) (now : ℤ) (h1 : 50 ≤ st.query_count)
    (h2 : now - st.start_time < 60) :
    rateGate st now =
      ({ st with start_time := now + (60 - (now - st.start_time)), query_count := 0 },
       now + (60 - (now - st.start_time)),
       [(now, Event.sleep (60 - (now - st.start_time)))]) := by
  simp only [rateGate, if_pos (And.intro h1 h2)]

/-- The rate gate when no blocking is required. -/
theorem rateGate_neg (st : ConverterState) (now : ℤ)
    (h : ¬(50 ≤ st.query_count ∧ now - st.start_time < 60)) :
    rateGate st now = (st, now, []) := by
  simp only [rateGate, if_neg h]

theorem rateGate_cache (st : ConverterState) (now : ℤ) :
    (rateGate st now).1.query_cache = st.query_cache := by
  unfold rateGate
  split <;> rfl

theorem rateGate_gemini (st : ConverterState) (now : ℤ) :
    (rateGate st now).1.use_gemini = st.use_gemini := by
  unfold rateGate
  split <;> rfl

/-- After any call that returns `ok sql`, the state is configured and the
cache maps the key of `(q, sch)` to `sql`. -/
theorem nl_to_sql_ok_inv (model md5hex : Str → Str) (st : ConverterState)
    (now : ℤ) (q : Str) (sch : Schema) (sql : Str)
    (h : (nl_to_sql model md5hex st now q sch).res = .ok sql) :
    (nl_to_sql model md5hex st now q sch).state.use_gemini = true ∧
      lookupC (nl_to_sql model md5hex st now q sch).state.query_cache
        (cache_key md5hex q sch) = some sql := by
  by_cases hg : st.use_gemini = false
  · rw [nl_to_sql_not_config model md5hex st now q sch hg] at h
    exact absurd h (by simp)
  · rw [Bool.not_eq_false] at hg
    cases hl : lookupC st.query_cache (cache_key md5hex q sch) with
    | some s =>
      rw [nl_to_sql_hit model md5hex st now q sch s hg hl] at h ⊢
      cases h
      exact ⟨hg, hl⟩
    | none =>
      rw [nl_to_sql_miss model md5hex st now q sch hg hl] at h ⊢
      cases hv : _is_valid_sql (pipelineResult model q sch) with
      | true =>
        rw [missCall_spec_true model st now q sch _ hv] at h ⊢
        replace h : Except.ok (pipelineResult model q sch) = Except.ok sql := h
        injection h with h
        subst h
        refine ⟨?_, ?_⟩
        · show ((rateGate st now).1).use_gemini = true
          rw [rateGate_gemini]
          exact hg
        · exact lookupC_cons_self _ _ _
      | false =>
        rw [missCall_spec_false model st now q sch _ hv] at h
        replace h : Except.error Err.validationRejected = Except.ok sql := h
        exact absurd h (by simp)

/-- Whatever the validation outcome, the miss path invokes the external
model on the built prompt (at the post-gate time). -/
theorem missCall_has_modelCall (model : Str → Str) (st : ConverterState) (now : ℤ)
    (q : Str) (sch : Schema) (key : Str) :
    ((rateGate st now).2.1, Event.modelCall (buildPrompt q sch)) ∈
      (missCall model st now q sch key).events := by
  cases hv : _is_valid_sql (pipelineResult model q sch) with
  | true =>
    rw [missCall_spec_true model st now q sch key hv]
    simp
  | false =>
    rw [missCall_spec_false model st now q sch key hv]
    simp

/-- C2: a converter built without a usable credential (`use_gemini = false`)
fails every `nl_to_sql` call immediately with the not-configured error: the
call performs no externally observable action (no sleep, no model call, no
sanitizing or validation) and leaves the instance's cache, call counter and
window start — indeed the whole state — unchanged. -/
theorem claim_C2 (model md5hex : Str → Str) (st : ConverterState) (now : ℤ)
    (q : Str) (sch : Schema) (hg : st.use_gemini = false) :
    nl_to_sql model md5hex st now q sch = ⟨.error .notConfigured, st, [], now⟩ :=
  nl_to_sql_not_config model md5hex st now q sch hg

/-- Witness for C2 at a concrete unconfigured converter. -/
theorem claim_C2_witness :
    nl_to_sql wGoodModel wIdFn (initConverter false 3) 7 wQ [] =
      ⟨.error .notConfigured, initConverter false 3, [], 7⟩ :=
  claim_C2 wGoodModel wIdFn (initConverter false 3) 7 wQ [] (by decide)

/-- C1: once a first `nl_to_sql` call on `(q, sch)` has returned an accepted
SQL string (which is then cached), a second call with the identical pair —
made with an arbitrary collaborator, in particular one that would answer
differently — returns exactly the same SQL string, produces no events at
all (so neither the external model nor the sanitizer nor the validator nor
the rate limiter's sleep runs again), and leaves the state unchanged. -/
theorem claim_C1 (model1 model2 md5hex : Str → Str) (st : ConverterState)
    (t1 t2 : ℤ) (q : Str) (sch : Schema) (sql : Str)
    (h : (nl_to_sql model1 md5hex st t1 q sch).res = .ok sql) :
    nl_to_sql model2 md5hex (nl_to_sql model1 md5hex st t1 q sch).state t2 q sch =
      ⟨.ok sql, (nl_to_sql model1 md5hex st t1 q sch).state, [], t2⟩ := by
  obtain ⟨hg, hl⟩ := nl_to_sql_ok_inv model1 md5hex st t1 q sch sql h
  exact nl_to_sql_hit model2 md5hex _ t2 q sch sql hg hl

/-- Witness for C1: a concrete first call succeeds, and the second call with
a collaborator that would answer differently still returns the first SQL. -/
theorem claim_C1_witness :
    nl_to_sql wAltModel wIdFn
        (nl_to_sql wGoodModel wIdFn (initConverter true 0) 0 wQ []).state 9 wQ [] =
      ⟨.ok wSQL, (nl_to_sql wGoodModel wIdFn (initConverter true 0) 0 wQ []).state, [], 9⟩ :=
  claim_C1 wGoodModel wAltModel wIdFn (initConverter true 0) 0 9 wQ [] wSQL (by decide)

/-- C6: when the sanitized, quote-normalized model output fails the shape
validator, the call raises the validation-rejected error and stores nothing
in the cache (the cache is exactly what it was), and an identical retry
with the same `(question, schema)` pair reaches the external model again
(there is no partial-success state). -/
theorem claim_C6 (model model2 md5hex : Str → Str) (st : ConverterState)
    (now t2 : ℤ) (q : Str) (sch : Schema)
    (hg : st.use_gemini = true)
    (hl : lookupC st.query_cache (cache_key md5hex q sch) = none)
    (hv : _is_valid_sql (pipelineResult model q sch) = false) :
    (nl_to_sql model md5hex st now q sch).res = .error .validationRejected ∧
    (nl_to_sql model md5hex st now q sch).state.query_cache = st.query_cache ∧
    (∃ t, (t, Event.modelCall (buildPrompt q sch)) ∈
      (nl_to_sql model2 md5hex (nl_to_sql model md5hex st now q sch).state t2 q sch).events) := by
  rw [nl_to_sql_miss model md5hex st now q sch hg hl,
    missCall_spec_false model st now q sch _ hv]
  refine ⟨rfl, ?_, ?_⟩
  · show (rateGate st now).1.query_cache = st.query_cache
    exact rateGate_cache st now
  · have hg2 : ((rateGate st now).1).use_gemini = true := by
      rw [rateGate_gemini]
      exact hg
    have hl2 : lookupC ((rateGate st now).1.query_cache) (cache_key md5hex q sch) = none := by
      rw [rateGate_cache]
      exact hl
    rw [show ({ (rateGate st now).1 with
        query_count := (rateGate st now).1.query_count + 1 } : ConverterState) =
        ⟨(rateGate st now).1.use_gemini, (rateGate st now).1.query_cache,
          (rateGate st now).1.query_count + 1, (rateGate st now).1.start_time⟩ from rfl]
    rw [nl_to_sql_miss model2 md5hex _ t2 q sch (by exact hg2) (by exact hl2)]
    exact ⟨_, missCall_has_modelCall model2 _ t2 q sch _⟩

/-- Witness for C6: a concrete call whose stubbed output fails validation is
rejected, caches nothing, and a retry invokes the model again. -/
theorem claim_C6_witness :
    (nl_to_sql wBadModel wIdFn (initConverter true 0) 0 wQ []).res
        = .error .validationRejected ∧
    (nl_to_sql wBadModel wIdFn (initConverter true 0) 0 wQ []).state.query_cache
        = (initConverter true 0).query_cache ∧
    (∃ t, (t, Event.modelCall (buildPrompt wQ [])) ∈
      (nl_to_sql wBadModel wIdFn
        (nl_to_sql wBadModel wIdFn (initConverter true 0) 0 wQ []).state 4 wQ []).events) :=
  claim_C6 wBadModel wBadModel wIdFn (initConverter true 0) 0 4 wQ []
    (by decide) (by decide) (by decide)

/-- C3 counterexample: a configured converter at the threshold (50 calls
counted, window still open) is driven through one blocking call whose
collaborator output is accepted; the call does sleep (here the full 60
units), but after it completes, the fresh window's counter is 1, not 0 —
the executed triggering call was counted by `self.query_count += 1`. -/
theorem claim_C3_counterexample :
    (nl_to_sql wGoodModel wIdFn c3State 0 wQ []).events.head?
        = some (0, Event.sleep 60) ∧
    ¬ ((nl_to_sql wGoodModel wIdFn c3State 0 wQ []).state.query_count = 0) ∧
    (nl_to_sql wGoodModel wIdFn c3State 0 wQ []).state.query_count = 1 := by
  decide

/-- C3 (amended): when a call reaches the rate gate with the counter at the
threshold (≥ 50) and the 60-unit window still open, it sleeps exactly the
remaining window time `60 - elapsed`, resets `start_time` to the wake time
(`window start + 60`) and the counter to zero, and then performs its model
invocation; the executed triggering call is counted once by the increment
after the model call, so when the call completes the fresh window's
counter is 1 (not 0). -/
theorem claim_C3 (model md5hex : Str → Str) (st : ConverterState) (now : ℤ)
    (q : Str) (sch : Schema)
    (hg : st.use_gemini = true)
    (hl : lookupC st.query_cache (cache_key md5hex q sch) = none)
    (hc : 50 ≤ st.query_count)
    (he : now - st.start_time < 60) :
    (nl_to_sql model md5hex st now q sch).events =
      [(now, Event.sleep (60 - (now - st.start_time))),
       (st.start_time + 60, Event.modelCall (buildPrompt q sch)),
       (st.start_time + 60, Event.sanitize (model (buildPrompt q sch))),
       (st.start_time + 60, Event.validate (pipelineResult model q sch))] ∧
    (nl_to_sql model md5hex st now q sch).state.start_time = st.start_time + 60 ∧
    (nl_to_sql model md5hex st now q sch).finish = st.start_time + 60 ∧
    (nl_to_sql model md5hex st now q sch).state.query_count = 1 := by
  have hring : now + (60 - (now - st.start_time)) = st.start_time + 60 := by ring
  rw [nl_to_sql_miss model md5hex st now q sch hg hl]
  cases hv : _is_valid_sql (pipelineResult model q sch) with
  | true =>
    rw [missCall_spec_true model st now q sch _ hv, rateGate_pos st now hc he]
    exact ⟨by simp [hring], by simp [hring], by simp [hring], rfl⟩
  | false =>
    rw [missCall_spec_false model st now q sch _ hv, rateGate_pos st now hc he]
    exact ⟨by simp [hring], by simp [hring], by simp [hring], rfl⟩

/-- Witness for C3 (amended) on a concrete blocked call: sleep of 50 units
at entry time 10, window restart at 60, counter 1 afterwards. -/
theorem claim_C3_witness :
    (nl_to_sql wGoodModel wIdFn c3State 10 wQ []).events =
      [((10 : ℤ), Event.sleep (60 - ((10 : ℤ) - c3State.start_time))),
       (c3State.start_time + 60, Event.modelCall (buildPrompt wQ [])),
       (c3State.start_time + 60, Event.sanitize (wGoodModel (buildPrompt wQ []))),
       (c3State.start_time + 60, Event.validate (pipelineResult wGoodModel wQ []))] ∧
    (nl_to_sql wGoodModel wIdFn c3State 10 wQ []).state.start_time
        = c3State.start_time + 60 ∧
    (nl_to_sql wGoodModel wIdFn c3State 10 wQ []).finish = c3State.start_time + 60 ∧
    (nl_to_sql wGoodModel wIdFn c3State 10 wQ []).state.query_count = 1 :=
  claim_C3 wGoodModel wIdFn c3State 10 wQ [] (by decide) (by decide) (by decide) (by decide)

theorem char_toNat_inj {a b : Char} (h : a.toNat = b.toNat) : a = b :=
  Char.eq_of_val_eq (UInt32.ext h)

theorem lexLe_total : ∀ a b : Str, lexLe a b = true ∨ lexLe b a = true
  | [], _ => Or.inl rfl
  | _ :: _, [] => Or.inr rfl
  | x :: xs, y :: ys => by
    by_cases h1 : x.toNat < y.toNat
    · left
      simp [lexLe, h1]
    · by_cases h2 : y.toNat < x.toNat
      · right
        simp [lexLe, h2]
      · rcases lexLe_total xs ys with h | h
        · left
          simp [lexLe, h1, h2, h]
        · right
          simp [lexLe, h1, h2, h]

theorem lexLe_cons (x y : Char) (xs ys : Str) :
    lexLe (x :: xs) (y :: ys) = true ↔
      (x.toNat < y.toNat ∨ (x.toNat = y.toNat ∧ lexLe xs ys = true)) := by
  simp only [lexLe]
  by_cases h1 : x.toNat < y.toNat
  · simp [h1]
  · by_cases h2 : y.toNat < x.toNat
    · simp [h1, h2]
      intro he
      exfalso
      omega
    · have he : x.toNat = y.toNat := by omega
      simp [h1, h2, he]

theorem lexLe_trans : ∀ {a b c : Str}, lexLe a b = true → lexLe b c = true →
    lexLe a c = true
  | [], _, _, _, _ => rfl
  | _ :: _, [], _, hab, _ => by simp [lexLe] at hab
  | _ :: _, _ :: _, [], _, hbc => by simp [lexLe] at hbc
  | x :: xs, y :: ys, z :: zs, hab, hbc => by
    rw [lexLe_cons] at hab hbc ⊢
    rcases hab with h | ⟨he1, h1⟩ <;> rcases hbc with h' | ⟨he2, h2⟩
    · exact Or.inl (by omega)
    · exact Or.inl (by omega)
    · exact Or.inl (by omega)
    · exact Or.inr ⟨by omega, lexLe_trans h1 h2⟩

theorem lexLe_antisymm : ∀ {a b : Str}, lexLe a b = true → lexLe b a = true → a = b
  | [], [], _, _ => rfl
  | [], _ :: _, _, hba => by simp [lexLe] at hba
  | _ :: _, [], hab, _ => by simp [lexLe] at hab
  | x :: xs, y :: ys, hab, hba => by
    simp only [lexLe] at hab hba
    by_cases h1 : x.toNat < y.toNat <;> by_cases h2 : y.toNat < x.toNat <;>
      simp [h1, h2] at hab hba
    · omega
    · have hx : x = y := char_toNat_inj (by omega)
      have ht : xs = ys := lexLe_antisymm hab hba
      rw [hx, ht]

instance : IsTotal (Str × List Str) itemLe :=
  ⟨fun a b => by
    unfold itemLe
    rcases lexLe_total a.1 b.1 with h | h
    · exact Or.inl h
    · exact Or.inr h⟩

instance : IsTrans (Str × List Str) itemLe :=
  ⟨fun _ _ _ hab hbc => lexLe_trans hab hbc⟩

/-- Sorting the items of two permuted schemas with distinct table names
yields the same list: `str(sorted(schema.items()))` is order-canonical. -/
theorem sortItems_eq_of_perm (s1 s2 : Schema) (hperm : s1.Perm s2)
    (hnd : (s1.map Prod.fst).Nodup) : sortItems s1 = sortItems s2 := by
  classical
  have hp1 : (sortItems s1).Perm s1 := List.perm_insertionSort itemLe s1
  have hp2 : (sortItems s2).Perm s2 := List.perm_insertionSort itemLe s2
  have hsorted1 : (sortItems s1).Sorted itemLe := List.sorted_insertionSort itemLe s1
  have hsorted2 : (sortItems s2).Sorted itemLe := List.sorted_insertionSort itemLe s2
  have hnd1 : ((sortItems s1).map Prod.fst).Nodup :=
    ((hp1.map Prod.fst).nodup_iff).mpr hnd
  have hnd2 : ((sortItems s2).map Prod.fst).Nodup :=
    ((hp2.map Prod.fst).nodup_iff).mpr (((hperm.map Prod.fst).nodup_iff).mp hnd)
  have hpw1 : (sortItems s1).Pairwise (fun a b => itemLe a b ∧ a.1 ≠ b.1) :=
    hsorted1.and (List.pairwise_map.mp hnd1)
  have hpw2 : (sortItems s2).Pairwise (fun a b => itemLe a b ∧ a.1 ≠ b.1) :=
    hsorted2.and (List.pairwise_map.mp hnd2)
  haveI : IsAntisymm (Str × List Str) (fun a b => itemLe a b ∧ a.1 ≠ b.1) :=
    ⟨fun _ _ h1 h2 => absurd (lexLe_antisymm h1.1 h2.1) h1.2⟩
  exact List.eq_of_perm_of_sorted ((hp1.trans hperm).trans hp2.symm) hpw1 hpw2

/-- C5: the cache key digest depends only on the question text and the
schema's content: permuting the iteration order of a schema whose table
names are distinct (as in any Python dict) leaves the digest unchanged,
whatever digest function is used. -/
theorem claim_C5 (md5hex : Str → Str) (q : Str) (s1 s2 : Schema)
    (hperm : s1.Perm s2) (hnd : (s1.map Prod.fst).Nodup) :
    cache_key md5hex q s1 = cache_key md5hex q s2 := by
  unfold cache_key cacheKeyBase
  rw [sortItems_eq_of_perm s1 s2 hperm hnd]

/-- Witness for C5: two concretely permuted two-table schemas give the same
key. -/
theorem claim_C5_witness :
    cache_key wIdFn wQ [("b".data, ["y".data]), ("a".data, ["x".data])]
      = cache_key wIdFn wQ [("a".data, ["x".data]), ("b".data, ["y".data])] :=
  claim_C5 wIdFn wQ _ _ (by decide) (by decide)

theorem hasKey_cons (p : Str × List Str) (rest : Schema) (t : Str) :
    hasKey (p :: rest) t = ((p.1 == t) || hasKey rest t) := by
  simp [hasKey]

/-- Key membership is invariant under permutation of the mapping. -/
theorem hasKey_perm (s1 s2 : Schema) (h : s1.Perm s2) (t : Str) :
    hasKey s1 t = hasKey s2 t := by
  rw [Bool.eq_iff_iff]
  simp only [hasKey, List.any_eq_true]
  constructor
  · rintro ⟨x, hx, hpx⟩
    exact ⟨x, h.mem_iff.mp hx, hpx⟩
  · rintro ⟨x, hx, hpx⟩
    exact ⟨x, h.mem_iff.mpr hx, hpx⟩

/-- The schema formatter reads the schema only through key membership of
the five vocabulary names. -/
theorem format_hasKey_congr (s1 s2 : Schema)
    (h : ∀ t, vocabNames.contains t = true → hasKey s1 t = hasKey s2 t) :
    _format_enhanced_schema s1 = _format_enhanced_schema s2 := by
  have h1 := h "student".data (by decide)
  have h2 := h "instructor".data (by decide)
  have h3 := h "course".data (by decide)
  have h4 := h "takes".data (by decide)
  have h5 := h "department".data (by decide)
  simp only [_format_enhanced_schema, enhancedDescriptions, List.foldl_cons, List.foldl_nil,
    h1, h2, h3, h4, h5]

/-- Filtering a schema to the vocabulary does not change membership of any
vocabulary name. -/
theorem hasKey_filter_vocab (sch : Schema) (t : Str)
    (ht : vocabNames.contains t = true) :
    hasKey (sch.filter (fun p => vocabNames.contains p.1)) t = hasKey sch t := by
  induction sch with
  | nil => rfl
  | cons p rest ih =>
    rw [List.filter_cons]
    cases hp : vocabNames.contains p.1 with
    | true =>
      rw [if_pos rfl, hasKey_cons, hasKey_cons, ih]
    | false =>
      rw [if_neg (by simp), hasKey_cons, ih]
      have hne : (p.1 == t) = false := by
        cases hq : p.1 == t
        · rfl
        · have hc : vocabNames.contains p.1 = true := by
            rw [eq_of_beq hq]
            exact ht
          rw [hp] at hc
          simp at hc
      rw [hne]
      simp

/-- C10: the schema formatter's output depends only on which of the five
known table names occur as keys of the mapping — never on the supplied
column lists: any two schema mappings with the same keys format to the
identical text (each known table's block is the fixed hard-coded
description). -/
theorem claim_C10 (s1 s2 : Schema) (h : ∀ t, hasKey s1 t = hasKey s2 t) :
    _format_enhanced_schema s1 = _format_enhanced_schema s2 :=
  format_hasKey_congr s1 s2 (fun t _ => h t)

/-- Witness for C10: a schema carrying the real student columns and one
carrying none at all format identically. -/
theorem claim_C10_witness :
    _format_enhanced_schema [("student".data, ["id".data, "name".data])]
      = _format_enhanced_schema [("student".data, [])] :=
  claim_C10 _ _ (fun _ => rfl)

/-- C9 counterexample: a table outside the known vocabulary is not rendered
with its column names — it is not rendered at all: the formatter's output
for a schema containing only the unknown table `foo` is the empty string,
mentioning neither the table nor its columns. -/
theorem claim_C9_counterexample :
    _format_enhanced_schema [("foo".data, ["a1".data, "b1".data])] = [] ∧
    hasSub "a1".data (_format_enhanced_schema [("foo".data, ["a1".data, "b1".data])])
      = false := by
  decide

/-- C9 (amended): tables whose names are not in the known vocabulary are
omitted from the output entirely (filtering them away changes nothing),
and the blocks of the vocabulary tables appear in the fixed vocabulary
order: permuting the schema mapping's iteration order leaves the output
unchanged. -/
theorem claim_C9 :
    (∀ sch : Schema, _format_enhanced_schema sch
        = _format_enhanced_schema (sch.filter (fun p => vocabNames.contains p.1))) ∧
    (∀ s1 s2 : Schema, s1.Perm s2 →
        _format_enhanced_schema s1 = _format_enhanced_schema s2) := by
  constructor
  · intro sch
    exact format_hasKey_congr _ _ (fun t ht => (hasKey_filter_vocab sch t ht).symm)
  · intro s1 s2 hperm
    exact format_hasKey_congr s1 s2 (fun t _ => hasKey_perm s1 s2 hperm t)

/-- Witness for C9 (amended), at a mixed known/unknown schema and a
transposition of it. -/
theorem claim_C9_witness :
    _format_enhanced_schema [("foo".data, ["a1".data]), ("course".data, ["c".data])]
        = _format_enhanced_schema
            ((([("foo".data, ["a1".data]), ("course".data, ["c".data])] : Schema)).filter
              (fun p => vocabNames.contains p.1)) ∧
    _format_enhanced_schema [("course".data, ["c".data]), ("foo".data, ["a1".data])]
        = _format_enhanced_schema [("foo".data, ["a1".data]), ("course".data, ["c".data])] :=
  ⟨claim_C9.1 _, claim_C9.2 _ _ (by decide)⟩

/-- C8: end-to-end, with the collaborator stubbed to return the fenced
double-quoted statement of the scenario, a configured fresh converter and
the sample five-table schema: `nl_to_sql` returns exactly
`SELECT COUNT(*) FROM student WHERE dept_name = 'Comp. Sci.';` — fences
stripped, lines joined, exactly one terminator appended, the double-quoted
literal after `=` rewritten to single quotes — and stores that string in
the cache under the key computed for the (question, schema) pair, whatever
digest function md5hex is. -/
theorem claim_C8 (md5hex : Str → Str) :
    nl_to_sql c8Model md5hex (initConverter true 0) 0 c8Question get_sample_schema =
      ⟨.ok c8Target,
       { use_gemini := true,
         query_cache := [(cache_key md5hex c8Question get_sample_schema, c8Target)],
         query_count := 1, start_time := 0 },
       [((0 : ℤ), Event.modelCall (buildPrompt c8Question get_sample_schema)),
        ((0 : ℤ), Event.sanitize c8Raw),
        ((0 : ℤ), Event.validate c8Target)],
       0⟩ ∧
    lookupC
        (nl_to_sql c8Model md5hex (initConverter true 0) 0 c8Question
          get_sample_schema).state.query_cache
        (cache_key md5hex c8Question get_sample_schema) = some c8Target := by
  have h : nl_to_sql c8Model md5hex (initConverter true 0) 0 c8Question get_sample_schema =
      ⟨.ok c8Target,
       { use_gemini := true,
         query_cache := [(cache_key md5hex c8Question get_sample_schema, c8Target)],
         query_count := 1, start_time := 0 },
       [((0 : ℤ), Event.modelCall (buildPrompt c8Question get_sample_schema)),
        ((0 : ℤ), Event.sanitize c8Raw),
        ((0 : ℤ), Event.validate c8Target)],
       0⟩ := by
    rfl
  refine ⟨h, ?_⟩
  rw [h]
  exact lookupC_cons_self _ _ _

/-- Witness for C8 at the identity digest function. -/
theorem claim_C8_witness :
    nl_to_sql c8Model wIdFn (initConverter true 0) 0 c8Question get_sample_schema =
      ⟨.ok c8Target,
       { use_gemini := true,
         query_cache := [(cache_key wIdFn c8Question get_sample_schema, c8Target)],
         query_count := 1, start_time := 0 },
       [((0 : ℤ), Event.modelCall (buildPrompt c8Question get_sample_schema)),
        ((0 : ℤ), Event.sanitize c8Raw),
        ((0 : ℤ), Event.validate c8Target)],
       0⟩ ∧
    lookupC
        (nl_to_sql c8Model wIdFn (initConverter true 0) 0 c8Question
          get_sample_schema).state.query_cache
        (cache_key wIdFn c8Question get_sample_schema) = some c8Target :=
  claim_C8 wIdFn

theorem beq_false_of_ws_mismatch {p c : Char} (hp : isSpaceCh p = false)
    (hc : isSpaceCh c = true) : (p == c) = false := by
  cases hq : p == c
  · rfl
  · exfalso
    rw [eq_of_beq hq] at hp
    rw [hp] at hc
    simp at hc

/-- Appending all-whitespace text does not affect matching a whitespace-free
pattern at the start. -/
theorem beginsWith_append_ws (pat : Str) (hnws : ∀ c ∈ pat, isSpaceCh c = false) :
    ∀ (t w : Str), (∀ c ∈ w, isSpaceCh c = true) →
      beginsWith pat (t ++ w) = beginsWith pat t := by
  induction pat with
  | nil => intro t w _; rfl
  | cons p ps ih =>
    intro t w hw
    cases t with
    | nil =>
      cases w with
      | nil => rfl
      | cons c cs =>
        have hb : (p == c) = false :=
          beq_false_of_ws_mismatch (hnws p (by simp)) (hw c (by simp))
        simp [beginsWith, hb]
    | cons a ts =>
      simp only [List.cons_append, beginsWith, List.append_eq]
      rw [ih (fun c hc => hnws c (List.mem_cons_of_mem p hc)) ts w hw]

/-- A whitespace-free pattern never occurs in all-whitespace text. -/
theorem findSub_ws_none (p : Char) (ps : Str) (hp : isSpaceCh p = false) :
    ∀ w : Str, (∀ c ∈ w, isSpaceCh c = true) → findSub (p :: ps) w = none := by
  intro w
  induction w with
  | nil => intro _; rfl
  | cons c cs ih =>
    intro hw
    have hb : beginsWith (p :: ps) (c :: cs) = false := by
      simp [beginsWith, beq_false_of_ws_mismatch hp (hw c (by simp))]
    simp only [findSub, hb, Bool.false_eq_true, if_false]
    rw [ih (fun d hd => hw d (by simp [hd]))]
    rfl

/-- Appending all-whitespace text does not affect the first occurrence of a
whitespace-free pattern. -/
theorem findSub_append_ws (p : Char) (ps : Str)
    (hnws : ∀ c ∈ p :: ps, isSpaceCh c = false) (w : Str)
    (hw : ∀ c ∈ w, isSpaceCh c = true) :
    ∀ t : Str, findSub (p :: ps) (t ++ w) = findSub (p :: ps) t := by
  intro t
  induction t with
  | nil =>
    simp only [List.nil_append]
    rw [findSub_ws_none p ps (hnws p (by simp)) w hw]
    rfl
  | cons a ts ih =>
    have hb := beginsWith_append_ws (p :: ps) hnws (a :: ts) w hw
    simp only [List.cons_append] at hb ⊢
    simp only [findSub, List.append_eq, hb, ih]

/-- Prepending all-whitespace text shifts the first occurrence of a
whitespace-free pattern by its length. -/
theorem findSub_ws_lead (p : Char) (ps : Str) (hp : isSpaceCh p = false) :
    ∀ (w s : Str), (∀ c ∈ w, isSpaceCh c = true) →
      findSub (p :: ps) (w ++ s) = (findSub (p :: ps) s).map (· + w.length) := by
  intro w
  induction w with
  | nil =>
    intro s _
    simp only [List.nil_append, List.length_nil]
    cases findSub (p :: ps) s <;> simp
  | cons c cs ih =>
    intro s hw
    have hb : beginsWith (p :: ps) (c :: (cs ++ s)) = false := by
      simp [beginsWith, beq_false_of_ws_mismatch hp (hw c (by simp))]
    simp only [List.cons_append, findSub, List.append_eq, hb, Bool.false_eq_true, if_false]
    rw [ih s (fun d hd => hw d (by simp [hd]))]
    cases findSub (p :: ps) s <;> simp
    omega

/-- `s` splits as leading whitespace, its trimmed core, and trailing
whitespace. -/
theorem trim_decomp (s : Str) :
    ∃ w2, s = s.takeWhile isSpaceCh ++ (trimChars s ++ w2) ∧
      (∀ c ∈ w2, isSpaceCh c = true) := by
  refine ⟨((s.dropWhile isSpaceCh).reverse.takeWhile isSpaceCh).reverse, ?_, ?_⟩
  · have hD : s.dropWhile isSpaceCh =
        trimChars s ++ ((s.dropWhile isSpaceCh).reverse.takeWhile isSpaceCh).reverse := by
      unfold trimChars dropTrailing
      rw [← List.reverse_append, List.takeWhile_append_dropWhile, List.reverse_reverse]
    conv_lhs => rw [← List.takeWhile_append_dropWhile isSpaceCh s, hD]
  · intro c hc
    rw [List.mem_reverse] at hc
    exact List.mem_takeWhile_imp hc

/-- Trimming only shifts the first occurrence of a whitespace-free pattern:
`findSub pat s` is `findSub pat (trimChars s)` displaced by the length of
the leading whitespace. -/
theorem findSub_trim (pat : Str) (hne : pat ≠ [])
    (hnws : ∀ c ∈ pat, isSpaceCh c = false) (s : Str) :
    findSub pat s = (findSub pat (trimChars s)).map (· + (s.takeWhile isSpaceCh).length) := by
  obtain ⟨p, ps, rfl⟩ : ∃ p ps, pat = p :: ps := by
    cases pat with
    | nil => exact absurd rfl hne
    | cons p ps => exact ⟨p, ps, rfl⟩
  obtain ⟨w2, hs, hw2⟩ := trim_decomp s
  conv_lhs => rw [hs]
  rw [findSub_ws_lead p ps (hnws p (by simp)) (s.takeWhile isSpaceCh) (trimChars s ++ w2)
      (fun c hc => List.mem_takeWhile_imp hc),
    findSub_append_ws p ps hnws w2 hw2 (trimChars s)]

theorem dropWhile_head_false {c : Char} {cs : Str}
    (h : (c :: cs).dropWhile isSpaceCh = c :: cs) : isSpaceCh c = false := by
  cases hc : isSpaceCh c
  · rfl
  · exfalso
    rw [List.dropWhile_cons, hc] at h
    simp only [if_true] at h
    have hlen := (cs.dropWhile_sublist isSpaceCh).length_le
    rw [h] at hlen
    simp at hlen

/-- `strip` is idempotent. -/
theorem trimChars_idem (s : Str) : trimChars (trimChars s) = trimChars s := by
  have hidem : ∀ l : Str, l.dropWhile isSpaceCh = l →
      (dropTrailing isSpaceCh l).dropWhile isSpaceCh = dropTrailing isSpaceCh l := by
    intro l hl
    have hdec : l = dropTrailing isSpaceCh l ++
        (l.reverse.takeWhile isSpaceCh).reverse := by
      unfold dropTrailing
      rw [← List.reverse_append, List.takeWhile_append_dropWhile, List.reverse_reverse]
    cases hT : dropTrailing isSpaceCh l with
    | nil => rfl
    | cons c cs =>
      have hcl : isSpaceCh c = false := by
        rw [hT] at hdec
        have hl' := hl
        rw [hdec] at hl'
        simp only [List.cons_append] at hl'
        exact dropWhile_head_false hl'
      rw [List.dropWhile_cons, hcl]
      simp
  show trimChars (dropTrailing isSpaceCh (s.dropWhile isSpaceCh)) = _
  unfold trimChars
  rw [hidem (s.dropWhile isSpaceCh) (List.dropWhile_idempotent isSpaceCh s)]
  unfold dropTrailing
  rw [List.reverse_reverse, List.dropWhile_idempotent]

/-- `count(pat) == 0` is exactly "no occurrence". -/
theorem countSub_eq_zero_iff (pat s : Str) : countSub pat s = 0 ↔ findSub pat s = none := by
  unfold countSub
  simp only [countSubAux]
  cases h : findSub pat s <;> simp [h]

/-- C7: `_is_valid_sql` accepts exactly the texts satisfying the claimed
structural conditions (case-insensitive SELECT and FROM present, first
SELECT before first FROM, terminating semicolon, length strictly between
10 and 2000, not a denylisted fragment); in particular `SELECT;` is
rejected and `SELECT 1 FROM t;` is accepted. -/
theorem claim_C7 :
    (∀ text : Str, _is_valid_sql text = true ↔ ValidatorSpec text) ∧
    _is_valid_sql "SELECT;".data = false ∧
    _is_valid_sql "SELECT 1 FROM t;".data = true := by
  refine ⟨?_, by decide, by decide⟩
  intro text
  cases text with
  | nil =>
    constructor
    · intro h
      exact absurd h (by decide)
    · rintro ⟨-, -, -, -, hlen, -⟩
      simp at hlen
  | cons c0 rest =>
    have hidem : trimChars (trimChars (upperChars (c0 :: rest)))
        = trimChars (upperChars (c0 :: rest)) := trimChars_idem _
    have hkS := findSub_trim kwSELECT (by decide) (by decide) (upperChars (c0 :: rest))
    have hkF := findSub_trim kwFROM (by decide) (by decide) (upperChars (c0 :: rest))
    simp only [_is_valid_sql, List.isEmpty_cons, Bool.false_eq_true, if_false]
    unfold ValidatorSpec
    rw [hidem]
    cases hfS : findSub kwSELECT (trimChars (upperChars (c0 :: rest))) with
    | none =>
      simp [hasSub, hfS, hkS]
    | some i =>
      cases hfF : findSub kwFROM (trimChars (upperChars (c0 :: rest))) with
      | none =>
        simp [hasSub, hfF, hkF]
      | some j =>
        simp [hasSub, hfS, hfF, hkS, hkF, countSub_eq_zero_iff,
          Nat.add_lt_add_iff_right]
        tauto

theorem modelCallsIn_append (a b : List TEvent) (lo : ℤ) :
    modelCallsIn (a ++ b) lo = modelCallsIn a lo + modelCallsIn b lo := by
  simp [modelCallsIn, List.filter_append]

theorem modelCallsIn_cons (e : TEvent) (evs : List TEvent) (lo : ℤ) :
    modelCallsIn (e :: evs) lo =
      (if isModelCallIn lo e = true then 1 else 0) + modelCallsIn evs lo := by
  unfold modelCallsIn
  rw [List.filter_cons]
  split
  · simp [List.length_cons]
    omega
  · simp

theorem isModelCallIn_sleep (lo t d : ℤ) : isModelCallIn lo (t, Event.sleep d) = false := rfl

theorem isModelCallIn_sanitize (lo t : ℤ) (r : Str) :
    isModelCallIn lo (t, Event.sanitize r) = false := rfl

theorem isModelCallIn_validate (lo t : ℤ) (v : Str) :
    isModelCallIn lo (t, Event.validate v) = false := rfl

theorem isModelCallIn_model (lo t : ℤ) (p : Str) :
    isModelCallIn lo (t, Event.modelCall p) = (decide (lo ≤ t) && decide (t < lo + 60)) := by
  simp [isModelCallIn]

/-- Events entirely before the window start contribute no model calls. -/
theorem modelCallsIn_zero_of_late (evs : List TEvent) (lo B : ℤ)
    (hB : ∀ e ∈ evs, e.1 ≤ B) (hlo : B < lo) : modelCallsIn evs lo = 0 := by
  unfold modelCallsIn
  rw [List.length_eq_zero]
  rw [List.filter_eq_nil_iff]
  intro e he
  have het := hB e he
  unfold isModelCallIn
  simp only [Bool.and_eq_true, decide_eq_true_eq, not_and]
  intro _ hle
  omega

/-- The three post-gate events of a miss-path call contribute exactly one
model invocation, inside the window iff the call time is. -/
theorem modelCallsIn_missEvents (t : ℤ) (p r v : Str) (lo : ℤ) :
    modelCallsIn [(t, Event.modelCall p), (t, Event.sanitize r), (t, Event.validate v)] lo =
      if lo ≤ t ∧ t < lo + 60 then 1 else 0 := by
  rw [modelCallsIn_cons, modelCallsIn_cons, modelCallsIn_cons]
  rw [isModelCallIn_model, isModelCallIn_sanitize, isModelCallIn_validate]
  by_cases h1 : lo ≤ t <;> by_cases h2 : t < lo + 60 <;>
    simp [h1, h2, modelCallsIn]

/-- The rate-limit invariant survives idle time. -/
theorem rateInv_mono (st : ConverterState) (now t : ℤ) (evs : List TEvent)
    (hinv : RateInv st now evs) (ht : now ≤ t) : RateInv st t evs :=
  ⟨hinv.1.trans ht, fun e he => (hinv.2.1 e he).trans ht, hinv.2.2.1, hinv.2.2.2⟩

/-- The rate-limit invariant after an unblocked miss-path call. -/
theorem rateInv_noblock (st : ConverterState) (now t : ℤ) (evs : List TEvent)
    (p r v : Str) (hinv : RateInv st now evs) (ht : now ≤ t)
    (hgate : ¬(50 ≤ st.query_count ∧ t - st.start_time < 60))
    (st' : ConverterState) (hs : st'.start_time = st.start_time)
    (hc : st'.query_count = st.query_count + 1) :
    RateInv st' t
      (evs ++ [(t, Event.modelCall p), (t, Event.sanitize r), (t, Event.validate v)]) := by
  obtain ⟨h1, h2, h3, h4⟩ := hinv
  refine ⟨?_, ?_, ?_, ?_⟩
  · rw [hs]
    omega
  · intro e he
    rcases List.mem_append.mp he with h | h
    · exact (h2 e h).trans ht
    · simp at h
      rcases h with ⟨rfl, -⟩ | ⟨rfl, -⟩ | ⟨rfl, -⟩ <;> simp
  · rw [hs, modelCallsIn_append, modelCallsIn_missEvents]
    by_cases hcnt : st.query_count < 50
    · have := h4 hcnt
      split <;> omega
    · have hge : st.start_time + 60 ≤ t := by
        by_contra hlt2
        push_neg at hlt2
        exact hgate ⟨by omega, by omega⟩
      rw [if_neg (fun hcond => absurd hcond.2 (by omega))]
      omega
  · intro hlt
    rw [hc] at hlt
    have hcnt : st.query_count < 50 := by omega
    have := h4 hcnt
    rw [hs, hc, modelCallsIn_append, modelCallsIn_missEvents]
    split <;> omega

/-- The rate-limit invariant after a blocked miss-path call: the window
restarts at `start_time + 60`, where the (counted) triggering call runs. -/
theorem rateInv_block (st : ConverterState) (now t : ℤ) (evs : List TEvent)
    (d : ℤ) (p r v : Str) (hinv : RateInv st now evs) (ht : now ≤ t)
    (he : t - st.start_time < 60)
    (st' : ConverterState) (hs : st'.start_time = st.start_time + 60)
    (hc : st'.query_count = 1) :
    RateInv st' (st.start_time + 60)
      (evs ++ ((t, Event.sleep d) ::
        [(st.start_time + 60, Event.modelCall p), (st.start_time + 60, Event.sanitize r),
         (st.start_time + 60, Event.validate v)])) := by
  obtain ⟨h1, h2, h3, h4⟩ := hinv
  have hold : modelCallsIn evs (st.start_time + 60) = 0 :=
    modelCallsIn_zero_of_late evs (st.start_time + 60) t
      (fun e hee => (h2 e hee).trans ht) (by omega)
  have hnew : modelCallsIn ((t, Event.sleep d) ::
      [(st.start_time + 60, Event.modelCall p), (st.start_time + 60, Event.sanitize r),
       (st.start_time + 60, Event.validate v)]) (st.start_time + 60) = 1 := by
    rw [modelCallsIn_cons, isModelCallIn_sleep, modelCallsIn_missEvents]
    simp only [Bool.false_eq_true, if_false]
    rw [if_pos ⟨le_refl _, by omega⟩]
  refine ⟨?_, ?_, ?_, ?_⟩
  · omega
  · intro e hee
    rcases List.mem_append.mp hee with h | h
    · have := h2 e h
      omega
    · simp at h
      rcases h with ⟨rfl, -⟩ | ⟨rfl, -⟩ | ⟨rfl, -⟩ | ⟨rfl, -⟩ <;> omega
  · rw [hs, modelCallsIn_append, hold, hnew]
    omega
  · intro _
    rw [hs, hc, modelCallsIn_append, hold, hnew]

/-- One `nl_to_sql` call preserves the rate-limit invariant. -/
theorem rateInv_step (model md5hex : Str → Str) (st : ConverterState) (now t : ℤ)
    (q : Str) (sch : Schema) (evs : List TEvent)
    (hinv : RateInv st now evs) (ht : now ≤ t) :
    RateInv (nl_to_sql model md5hex st t q sch).state
      (nl_to_sql model md5hex st t q sch).finish
      (evs ++ (nl_to_sql model md5hex st t q sch).events) := by
  by_cases hg : st.use_gemini = false
  · rw [nl_to_sql_not_config model md5hex st t q sch hg]
    simpa using rateInv_mono st now t evs hinv ht
  · rw [Bool.not_eq_false] at hg
    cases hl : lookupC st.query_cache (cache_key md5hex q sch) with
    | some s =>
      rw [nl_to_sql_hit model md5hex st t q sch s hg hl]
      simpa using rateInv_mono st now t evs hinv ht
    | none =>
      rw [nl_to_sql_miss model md5hex st t q sch hg hl]
      by_cases hgate : 50 ≤ st.query_count ∧ t - st.start_time < 60
      · have hw : t + (60 - (t - st.start_time)) = st.start_time + 60 := by ring
        cases hv : _is_valid_sql (pipelineResult model q sch) with
        | true =>
          rw [missCall_spec_true model st t q sch _ hv, rateGate_pos st t hgate.1 hgate.2]
          simp only [hw]
          apply rateInv_block st now t evs _ _ _ _ hinv ht hgate.2 <;> rfl
        | false =>
          rw [missCall_spec_false model st t q sch _ hv, rateGate_pos st t hgate.1 hgate.2]
          simp only [hw]
          apply rateInv_block st now t evs _ _ _ _ hinv ht hgate.2 <;> rfl
      · cases hv : _is_valid_sql (pipelineResult model q sch) with
        | true =>
          rw [missCall_spec_true model st t q sch _ hv, rateGate_neg st t hgate]
          simp only [List.nil_append]
          apply rateInv_noblock st now t evs _ _ _ hinv ht hgate <;> rfl
        | false =>
          rw [missCall_spec_false model st t q sch _ hv, rateGate_neg st t hgate]
          simp only [List.nil_append]
          apply rateInv_noblock st now t evs _ _ _ hinv ht hgate <;> rfl

/-- The rate-limit invariant holds along any synchronous call sequence with
nonnegative inter-call delays. -/
theorem rateInv_runTrace (model md5hex : Str → Str) (reqs : List Request) :
    ∀ (st : ConverterState) (now : ℤ) (evs : List TEvent), RateInv st now evs →
      (∀ r ∈ reqs, 0 ≤ r.delay) →
      RateInv (runTrace model md5hex st now reqs).1
        (runTrace model md5hex st now reqs).2.1
        (evs ++ (runTrace model md5hex st now reqs).2.2) := by
  induction reqs with
  | nil =>
    intro st now evs hinv _
    simpa [runTrace] using hinv
  | cons r rs ih =>
    intro st now evs hinv hd
    simp only [runTrace]
    have h1 := rateInv_step model md5hex st now (now + r.delay) r.nl_query r.schema evs hinv
      (by have := hd r (by simp); omega)
    have h2 := ih _ _ _ h1 (fun x hx => hd x (by simp [hx]))
    simpa [List.append_assoc] using h2

/-- C4 counterexample: the claimed fixed-interval reset does not exist, and
more than 50 model invocations can fall inside a single 60-unit window.
With the first call made 61 units after construction (so `elapsed < 60`
never holds at the gate again) and 50 immediate retries whose stubbed
output always fails validation (hence is never cached), all 51 calls
invoke the external model at time 61 — 51 invocations inside the window
`[61, 121)`. -/
theorem claim_C4_counterexample :
    50 < modelCallsIn
      (runTrace wBadModel wIdFn (initConverter true 0) 0 c4Requests).2.2 61 := by
  decide

/-- C4 (amended): at most 50 external model invocations lie within the rate
limiter's *current* window `[window_start, window_start + 60)`, along every
synchronous call sequence with nonnegative delays; `window_start` advances
only when a call blocks, so 60-unit spans other than the current window
carry no such bound. -/
theorem claim_C4 (model md5hex : Str → Str) (configured : Bool) (t0 : ℤ)
    (reqs : List Request) (hd : ∀ r ∈ reqs, 0 ≤ r.delay) :
    modelCallsIn (runTrace model md5hex (initConverter configured t0) t0 reqs).2.2
      (runTrace model md5hex (initConverter configured t0) t0 reqs).1.start_time ≤ 50 := by
  have h0 : RateInv (initConverter configured t0) t0 [] := by
    refine ⟨le_refl _, by simp, by simp [modelCallsIn], ?_⟩
    intro _
    simp [modelCallsIn]
  have h := rateInv_runTrace model md5hex reqs (initConverter configured t0) t0 [] h0 hd
  simpa using h.2.2.1

/-- Witness for C4 (amended) on the concrete 51-call trace: its current
(never advanced) window `[0, 60)` contains no more than 50 invocations. -/
theorem claim_C4_witness :
    modelCallsIn (runTrace wBadModel wIdFn (initConverter true 0) 0 c4Requests).2.2
      (runTrace wBadModel wIdFn (initConverter true 0) 0 c4Requests).1.start_time ≤ 50 :=
  claim_C4 wBadModel wIdFn true 0 c4Requests (by decide)

/-- Witness for C7 at the accepted concrete statement. -/
theorem claim_C7_witness : ValidatorSpec ("SELECT 1 FROM t;".data) :=
  (claim_C7.1 ("SELECT 1 FROM t;".data)).mp (by decide)
